import Mathlib

/-!
# Verification of the converto unit-conversion engine

This file gives a shallow embedding of the pure conversion engine of the
converto browser extension: the eight primitive unit-conversion functions,
the mode-dispatched `directConversion` and `reverseConversion`, the label
table `getLabelsAndPlaceholders`, and the mode-inversion map with its
identity fallback (`invert`, as used by the swap action `handleSwitch`).

JavaScript numbers are untyped, so the arithmetic layer is parametrised by
the number type `α`.  Claims about exact arithmetic are settled at `α = ℚ`;
claims about the IEEE special values `Infinity` and `NaN` are settled at
`α = JSNum`, an exact-rational model of JavaScript numbers extended with
the special values (negative zero is identified with zero; rounding and
overflow of huge finite values are not modelled, which does not affect the
concrete inputs used here).
-/

/-- Record of the four user-configurable base values, destructured by
`directConversion` and `reverseConversion` in the source
(`{ baseRem, baseEm, containerWidth, baseUnit }`). -/
structure Bases (α : Type) where
  baseRem : α
  baseEm : α
  containerWidth : α
  baseUnit : α

/-- `pxToRem` from the source: `px / baseRem`. -/
def pxToRem {α : Type} [Div α] (px baseRem : α) : α :=
  px / baseRem

/-- `remToPx` from the source: `rem * baseRem`. -/
def remToPx {α : Type} [Mul α] (rem baseRem : α) : α :=
  rem * baseRem

/-- `pxToEm` from the source: `px / baseEm`. -/
def pxToEm {α : Type} [Div α] (px baseEm : α) : α :=
  px / baseEm

/-- `emToPx` from the source: `em * baseEm`. -/
def emToPx {α : Type} [Mul α] (em baseEm : α) : α :=
  em * baseEm

/-- `pxToPct` from the source: `(px / containerWidth) * 100`. -/
def pxToPct {α : Type} [Div α] [Mul α] [OfNat α 100] (px containerWidth : α) : α :=
  (px / containerWidth) * 100

/-- `pctToPx` from the source: `(pct / 100) * containerWidth`. -/
def pctToPx {α : Type} [Div α] [Mul α] [OfNat α 100] (pct containerWidth : α) : α :=
  (pct / 100) * containerWidth

/-- `baseUnitToPx` from the source: `base * baseUnit`. -/
def baseUnitToPx {α : Type} [Mul α] (base baseUnit : α) : α :=
  base * baseUnit

/-- `pxToBaseUnit` from the source: `px / baseUnit`. -/
def pxToBaseUnit {α : Type} [Div α] (px baseUnit : α) : α :=
  px / baseUnit

/-- `directConversion` from the source: a `switch` on the mode string
dispatching to the primitive converters, with default result `0`. -/
def directConversion {α : Type} [Mul α] [Div α] [OfNat α 100] [OfNat α 0]
    (selectedConversion : String) (value : α) (r : Bases α) : α :=
  if selectedConversion = "PX_REM" then pxToRem value r.baseRem
  else if selectedConversion = "REM_PX" then remToPx value r.baseRem
  else if selectedConversion = "PX_EM" then pxToEm value r.baseEm
  else if selectedConversion = "EM_PX" then emToPx value r.baseEm
  else if selectedConversion = "PX_PCT" then pxToPct value r.containerWidth
  else if selectedConversion = "PCT_PX" then pctToPx value r.containerWidth
  else if selectedConversion = "BASE_PX" then baseUnitToPx value r.baseUnit
  else if selectedConversion = "PX_BASE" then pxToBaseUnit value r.baseUnit
  else 0

/-- `reverseConversion` from the source: the same `switch`, each mode
dispatching to the primitive converter of the opposite direction, with
default result `0`. -/
def reverseConversion {α : Type} [Mul α] [Div α] [OfNat α 100] [OfNat α 0]
    (selectedConversion : String) (value : α) (r : Bases α) : α :=
  if selectedConversion = "PX_REM" then remToPx value r.baseRem
  else if selectedConversion = "REM_PX" then pxToRem value r.baseRem
  else if selectedConversion = "PX_EM" then emToPx value r.baseEm
  else if selectedConversion = "EM_PX" then pxToEm value r.baseEm
  else if selectedConversion = "PX_PCT" then pctToPx value r.containerWidth
  else if selectedConversion = "PCT_PX" then pxToPct value r.containerWidth
  else if selectedConversion = "BASE_PX" then pxToBaseUnit value r.baseUnit
  else if selectedConversion = "PX_BASE" then baseUnitToPx value r.baseUnit
  else 0

/-- The own-property entries of the `invertedMap` object literal from
`src/utils/units.js`: `some` exactly at the eight own keys.  A full
JavaScript property read on the object also consults the prototype chain;
that read is `invertedMapGet` below. -/
def invertedMap (mode : String) : Option String :=
  if mode = "PX_REM" then some "REM_PX"
  else if mode = "REM_PX" then some "PX_REM"
  else if mode = "PX_EM" then some "EM_PX"
  else if mode = "EM_PX" then some "PX_EM"
  else if mode = "PX_PCT" then some "PCT_PX"
  else if mode = "PCT_PX" then some "PX_PCT"
  else if mode = "BASE_PX" then some "PX_BASE"
  else if mode = "PX_BASE" then some "BASE_PX"
  else none

/-- The string-level mode pairing of the table's own keys, with identity
elsewhere.  On the eight modes — the only inputs the engine claims apply it
to — it agrees with the full JavaScript lookup `handleSwitchNewConversion`
below; on names inherited from `Object.prototype` the two differ. -/
def invert (mode : String) : String :=
  (invertedMap mode).getD mode

/-- The member names a plain object literal inherits from
`Object.prototype` in a standard JavaScript environment.  Reading any of
them on the `invertedMap` object yields an inherited function (for
`__proto__`, an object), which is truthy and is not a mode string. -/
def objectPrototypeMembers : List String :=
  ["constructor", "hasOwnProperty", "isPrototypeOf", "propertyIsEnumerable",
   "toLocaleString", "toString", "valueOf", "__proto__", "__defineGetter__",
   "__defineSetter__", "__lookupGetter__", "__lookupSetter__"]

/-- Result of a JavaScript property read on the `invertedMap` object
literal: an own-property string value, a member inherited from
`Object.prototype` (a function or object, recorded by its name), or
`undefined`. -/
inductive JSProp : Type where
  | str : String → JSProp
  | inherited : String → JSProp
  | undef : JSProp
deriving DecidableEq

/-- The JavaScript property read `invertedMap[selectedConversion]`: own
properties shadow the prototype; otherwise the read walks up to
`Object.prototype`; a key absent from both gives `undefined`. -/
def invertedMapGet (mode : String) : JSProp :=
  match invertedMap mode with
  | some paired => JSProp.str paired
  | none =>
      if mode ∈ objectPrototypeMembers then JSProp.inherited mode
      else JSProp.undef

/-- JavaScript truthiness of a property-read result: a string is truthy
iff it is non-empty, inherited functions and objects are truthy, and
`undefined` is falsy. -/
def jsTruthy : JSProp → Bool
  | .str s => !s.isEmpty
  | .inherited _ => true
  | .undef => false

/-- The new conversion value computed by `handleSwitch` in the source:
`invertedMap[selectedConversion] || selectedConversion`, where `||`
returns its left operand when truthy and its right operand otherwise. -/
def handleSwitchNewConversion (selectedConversion : String) : JSProp :=
  if jsTruthy (invertedMapGet selectedConversion) then
    invertedMapGet selectedConversion
  else JSProp.str selectedConversion

/-- The eight conversion-mode tags, the `value` fields of `selectOptions`
in `src/utils/units.js`. -/
def modes8 : List String :=
  ["PX_REM", "REM_PX", "PX_EM", "EM_PX", "PX_PCT", "PCT_PX", "BASE_PX", "PX_BASE"]

/-- The default base values from the source component state:
`baseRem = 16`, `baseEm = 16`, `containerWidth = 1024`, `baseUnit = 8`. -/
def defaultBases : Bases ℚ :=
  ⟨16, 16, 1024, 8⟩

/-- Model of a JavaScript number: an exact rational, `Infinity`,
`-Infinity`, or `NaN` (negative zero identified with zero). -/
inductive JSNum : Type where
  | fin : ℚ → JSNum
  | posInf : JSNum
  | negInf : JSNum
  | nan : JSNum
deriving DecidableEq

/-- JavaScript multiplication on the `JSNum` model. -/
def JSNum.mul : JSNum → JSNum → JSNum
  | .nan, _ => .nan
  | _, .nan => .nan
  | .fin a, .fin b => .fin (a * b)
  | .fin a, .posInf => if 0 < a then .posInf else if a < 0 then .negInf else .nan
  | .fin a, .negInf => if 0 < a then .negInf else if a < 0 then .posInf else .nan
  | .posInf, .fin b => if 0 < b then .posInf else if b < 0 then .negInf else .nan
  | .negInf, .fin b => if 0 < b then .negInf else if b < 0 then .posInf else .nan
  | .posInf, .posInf => .posInf
  | .posInf, .negInf => .negInf
  | .negInf, .posInf => .negInf
  | .negInf, .negInf => .posInf

/-- JavaScript division on the `JSNum` model: a nonzero finite number
divided by zero gives a signed infinity, `0 / 0` gives `NaN`. -/
def JSNum.div : JSNum → JSNum → JSNum
  | .nan, _ => .nan
  | _, .nan => .nan
  | .fin a, .fin b =>
      if b = 0 then (if 0 < a then .posInf else if a < 0 then .negInf else .nan)
      else .fin (a / b)
  | .fin _, .posInf => .fin 0
  | .fin _, .negInf => .fin 0
  | .posInf, .fin b => if b < 0 then .negInf else .posInf
  | .negInf, .fin b => if b < 0 then .posInf else .negInf
  | .posInf, _ => .nan
  | .negInf, _ => .nan

instance : Mul JSNum := ⟨JSNum.mul⟩

instance : Div JSNum := ⟨JSNum.div⟩

instance : OfNat JSNum 0 := ⟨JSNum.fin 0⟩

instance : OfNat JSNum 100 := ⟨JSNum.fin 100⟩

/-- The base record used by the spec's boundary case: the default base
values with `containerWidth` replaced by `0`, over `JSNum`. -/
def cwZeroBases : Bases JSNum :=
  ⟨JSNum.fin 16, JSNum.fin 16, JSNum.fin 0, JSNum.fin 8⟩

/-- The record of two labels and two placeholders returned by
`getLabelsAndPlaceholders` in the source. -/
structure LabelSet where
  label1 : String
  label2 : String
  placeholder1 : String
  placeholder2 : String
deriving DecidableEq

/-- `getLabelsAndPlaceholders` from the source: a `switch` on the mode
string returning the two unit labels and placeholders of the mode, with a
generic default for unrecognized modes. -/
def getLabelsAndPlaceholders (selectedConversion : String) : LabelSet :=
  if selectedConversion = "PX_REM" then ⟨"PX", "REM", "PX", "REM"⟩
  else if selectedConversion = "REM_PX" then ⟨"REM", "PX", "REM", "PX"⟩
  else if selectedConversion = "PX_EM" then ⟨"PX", "EM", "PX", "EM"⟩
  else if selectedConversion = "EM_PX" then ⟨"EM", "PX", "EM", "PX"⟩
  else if selectedConversion = "PX_PCT" then ⟨"PX", "%", "PX", "%"⟩
  else if selectedConversion = "PCT_PX" then ⟨"%", "PX", "%", "PX"⟩
  else if selectedConversion = "BASE_PX" then ⟨"Base Unit", "PX", "base unit", "PX"⟩
  else if selectedConversion = "PX_BASE" then ⟨"PX", "Base Unit", "PX", "base unit"⟩
  else ⟨"Value 1", "Value 2", "value", "value"⟩

/-- The single base value a conversion mode reads, used to state C9:
`PX_REM`/`REM_PX` read `baseRem`, `PX_EM`/`EM_PX` read `baseEm`,
`PX_PCT`/`PCT_PX` read `containerWidth`, `BASE_PX`/`PX_BASE` read
`baseUnit`. -/
def relevantBase (mode : String) (r : Bases ℚ) : ℚ :=
  if mode = "PX_REM" ∨ mode = "REM_PX" then r.baseRem
  else if mode = "PX_EM" ∨ mode = "EM_PX" then r.baseEm
  else if mode = "PX_PCT" ∨ mode = "PCT_PX" then r.containerWidth
  else r.baseUnit

/-- C3: `directConversion` computes exactly the per-mode formula of the
spec's table, over exact rational arithmetic, and at the default base
values it sends `(PX_REM, 32) ↦ 2`, `(PX_PCT, 256) ↦ 25` and
`(BASE_PX, 3) ↦ 24`. -/
theorem C3_direct_formulas :
    (∀ (v : ℚ) (r : Bases ℚ), directConversion "PX_REM" v r = v / r.baseRem) ∧
    (∀ (v : ℚ) (r : Bases ℚ), directConversion "REM_PX" v r = v * r.baseRem) ∧
    (∀ (v : ℚ) (r : Bases ℚ), directConversion "PX_EM" v r = v / r.baseEm) ∧
    (∀ (v : ℚ) (r : Bases ℚ), directConversion "EM_PX" v r = v * r.baseEm) ∧
    (∀ (v : ℚ) (r : Bases ℚ),
      directConversion "PX_PCT" v r = (v / r.containerWidth) * 100) ∧
    (∀ (v : ℚ) (r : Bases ℚ),
      directConversion "PCT_PX" v r = (v / 100) * r.containerWidth) ∧
    (∀ (v : ℚ) (r : Bases ℚ), directConversion "BASE_PX" v r = v * r.baseUnit) ∧
    (∀ (v : ℚ) (r : Bases ℚ), directConversion "PX_BASE" v r = v / r.baseUnit) ∧
    directConversion "PX_REM" 32 defaultBases = 2 ∧
    directConversion "PX_PCT" 256 defaultBases = 25 ∧
    directConversion "BASE_PX" 3 defaultBases = 24 := by
  refine ⟨fun v r => rfl, fun v r => rfl, fun v r => rfl, fun v r => rfl,
    fun v r => rfl, fun v r => rfl, fun v r => rfl, fun v r => rfl, ?_, ?_, ?_⟩ <;>
    simp [directConversion, pxToRem, pxToPct, baseUnitToPx, defaultBases] <;> norm_num

/-- C1: for every one of the 8 conversion modes, every rational value `v`
and every base record whose four base values are strictly positive,
`reverseConversion` undoes `directConversion` exactly (over exact
arithmetic). -/
theorem C1_round_trip (mode : String) (hm : mode ∈ modes8) (v : ℚ) (r : Bases ℚ)
    (h1 : 0 < r.baseRem) (h2 : 0 < r.baseEm)
    (h3 : 0 < r.containerWidth) (h4 : 0 < r.baseUnit) :
    reverseConversion mode (directConversion mode v r) r = v := by
  have n1 : r.baseRem ≠ 0 := ne_of_gt h1
  have n2 : r.baseEm ≠ 0 := ne_of_gt h2
  have n3 : r.containerWidth ≠ 0 := ne_of_gt h3
  have n4 : r.baseUnit ≠ 0 := ne_of_gt h4
  fin_cases hm <;>
    simp [reverseConversion, directConversion, pxToRem, remToPx, pxToEm, emToPx,
      pxToPct, pctToPx, baseUnitToPx, pxToBaseUnit] <;>
    field_simp <;> ring

/-- Witness for C1 at mode `PX_REM`, value 32, default base values. -/
theorem C1_round_trip_witness :
    reverseConversion "PX_REM" (directConversion "PX_REM" 32 defaultBases)
      defaultBases = 32 :=
  C1_round_trip "PX_REM" (by decide) 32 defaultBases
    (by norm_num [defaultBases]) (by norm_num [defaultBases])
    (by norm_num [defaultBases]) (by norm_num [defaultBases])

/-- C2: for every one of the 8 conversion modes, every value and every base
record, the reverse transform of a mode is exactly the direct transform of
the mode's paired (inverted) mode. -/
theorem C2_reverse_is_direct_of_inverted (mode : String) (hm : mode ∈ modes8)
    (v : ℚ) (r : Bases ℚ) :
    reverseConversion mode v r = directConversion (invert mode) v r := by
  fin_cases hm <;> rfl

/-- Witness for C2 at mode `BASE_PX`, value 3, default base values. -/
theorem C2_reverse_is_direct_of_inverted_witness :
    reverseConversion "BASE_PX" 3 defaultBases =
      directConversion (invert "BASE_PX") 3 defaultBases :=
  C2_reverse_is_direct_of_inverted "BASE_PX" (by decide) 3 defaultBases

/-- Multiplication of finite JavaScript numbers is exact. -/
theorem JSNum.fin_mul_fin (a b : ℚ) :
    JSNum.fin a * JSNum.fin b = JSNum.fin (a * b) :=
  rfl

/-- Division of a finite JavaScript number by finite zero gives a signed
infinity, or `NaN` for `0 / 0`. -/
theorem JSNum.fin_div_fin_zero (a : ℚ) :
    JSNum.fin a / JSNum.fin 0 =
      if 0 < a then JSNum.posInf else if a < 0 then JSNum.negInf else JSNum.nan := by
  show JSNum.div (JSNum.fin a) (JSNum.fin 0) = _
  simp [JSNum.div]

/-- Division of finite JavaScript numbers with a nonzero divisor is exact. -/
theorem JSNum.fin_div_fin (a b : ℚ) (hb : b ≠ 0) :
    JSNum.fin a / JSNum.fin b = JSNum.fin (a / b) := by
  show JSNum.div (JSNum.fin a) (JSNum.fin b) = _
  simp [JSNum.div, hb]

/-- The numeral `100` of the `JSNum` model is the finite rational `100`. -/
theorem JSNum.hundred_def : (100 : JSNum) = JSNum.fin 100 :=
  rfl

/-- Multiplying the special values by the positive literal `100`. -/
theorem JSNum.special_mul_hundred :
    JSNum.posInf * (100 : JSNum) = JSNum.posInf ∧
    JSNum.negInf * (100 : JSNum) = JSNum.negInf ∧
    JSNum.nan * (100 : JSNum) = JSNum.nan := by
  refine ⟨?_, ?_, ?_⟩ <;> show JSNum.mul _ (JSNum.fin 100) = _ <;>
    simp [JSNum.mul]

/-- C5 counterexample: with `containerWidth = 0` and the other base values
at their defaults, mode `PX_REM` at value 32 returns the finite number 2,
not `Infinity` or `NaN`, refuting the claim's "for every mode". -/
theorem C5_counterexample :
    directConversion "PX_REM" (JSNum.fin 32) cwZeroBases = JSNum.fin 2 ∧
    ¬ (directConversion "PX_REM" (JSNum.fin 32) cwZeroBases = JSNum.posInf ∨
       directConversion "PX_REM" (JSNum.fin 32) cwZeroBases = JSNum.negInf ∨
       directConversion "PX_REM" (JSNum.fin 32) cwZeroBases = JSNum.nan) := by
  have h : directConversion "PX_REM" (JSNum.fin 32) cwZeroBases = JSNum.fin 2 := by
    simp only [directConversion, pxToRem, cwZeroBases, String.reduceEq, reduceIte]
    rw [JSNum.fin_div_fin 32 16 (by norm_num)]
    norm_num
  refine ⟨h, ?_⟩
  rw [h]
  simp

/-- C5 amended: for the mode that divides by `containerWidth` (`PX_PCT`),
a base record with `containerWidth = 0` yields `Infinity` for positive
values, `-Infinity` for negative values and `NaN` for zero — a returned
special value, not an error — and with a positive finite `containerWidth`,
`directConversion ("PX_PCT", 0)` returns `0`. -/
theorem C5_pct_boundary (r : Bases JSNum) (hc : r.containerWidth = JSNum.fin 0)
    (v : ℚ) :
    (0 < v → directConversion "PX_PCT" (JSNum.fin v) r = JSNum.posInf) ∧
    (v < 0 → directConversion "PX_PCT" (JSNum.fin v) r = JSNum.negInf) ∧
    (v = 0 → directConversion "PX_PCT" (JSNum.fin v) r = JSNum.nan) ∧
    (∀ (r2 : Bases JSNum) (c : ℚ), r2.containerWidth = JSNum.fin c → 0 < c →
      directConversion "PX_PCT" (JSNum.fin 0) r2 = JSNum.fin 0) := by
  refine ⟨?_, ?_, ?_, ?_⟩
  · intro hv
    simp only [directConversion, pxToPct, hc, String.reduceEq, reduceIte]
    rw [JSNum.fin_div_fin_zero, if_pos hv, JSNum.special_mul_hundred.1]
  · intro hv
    simp only [directConversion, pxToPct, hc, String.reduceEq, reduceIte]
    rw [JSNum.fin_div_fin_zero, if_neg (not_lt.mpr hv.le), if_pos hv,
      JSNum.special_mul_hundred.2.1]
  · intro hv
    subst hv
    simp only [directConversion, pxToPct, hc, String.reduceEq, reduceIte]
    rw [JSNum.fin_div_fin_zero, if_neg (lt_irrefl (0 : ℚ)),
      if_neg (lt_irrefl (0 : ℚ)), JSNum.special_mul_hundred.2.2]
  · intro r2 c h2 hcpos
    simp only [directConversion, pxToPct, h2, String.reduceEq, reduceIte]
    rw [JSNum.hundred_def, JSNum.fin_div_fin 0 c (ne_of_gt hcpos),
      JSNum.fin_mul_fin]
    norm_num

/-- Witness for C5's amended statement at value 256 with the default base
values and `containerWidth = 0`, and at value 0 with the defaults. -/
theorem C5_pct_boundary_witness :
    directConversion "PX_PCT" (JSNum.fin 256) cwZeroBases = JSNum.posInf ∧
    directConversion "PX_PCT" (JSNum.fin 0)
      ⟨JSNum.fin 16, JSNum.fin 16, JSNum.fin 1024, JSNum.fin 8⟩ = JSNum.fin 0 :=
  ⟨(C5_pct_boundary cwZeroBases rfl 256).1 (by norm_num),
   (C5_pct_boundary cwZeroBases rfl 0).2.2.2
     ⟨JSNum.fin 16, JSNum.fin 16, JSNum.fin 1024, JSNum.fin 8⟩ 1024 rfl (by norm_num)⟩

/-- C4: the inversion table is an involution over all 8 conversion modes:
for every mode in the enumeration, `invert (invert mode) = mode`. -/
theorem C4_invert_involution (mode : String) (hm : mode ∈ modes8) :
    invert (invert mode) = mode := by
  fin_cases hm <;> rfl

/-- Witness for C4 at the concrete mode `PX_REM`. -/
theorem C4_invert_involution_witness : invert (invert "PX_REM") = "PX_REM" :=
  C4_invert_involution "PX_REM" (by decide)

/-- C6: `getLabelsAndPlaceholders` maps each of the 8 modes to the two unit
labels the mode relates (in particular `EM_PX ↦ (EM, PX)`), and every input
outside the enumeration takes the default branch returning the generic
`Value 1`/`Value 2` placeholders. -/
theorem C6_labels :
    (getLabelsAndPlaceholders "PX_REM").label1 = "PX" ∧
    (getLabelsAndPlaceholders "PX_REM").label2 = "REM" ∧
    (getLabelsAndPlaceholders "REM_PX").label1 = "REM" ∧
    (getLabelsAndPlaceholders "REM_PX").label2 = "PX" ∧
    (getLabelsAndPlaceholders "PX_EM").label1 = "PX" ∧
    (getLabelsAndPlaceholders "PX_EM").label2 = "EM" ∧
    (getLabelsAndPlaceholders "EM_PX").label1 = "EM" ∧
    (getLabelsAndPlaceholders "EM_PX").label2 = "PX" ∧
    (getLabelsAndPlaceholders "PX_PCT").label1 = "PX" ∧
    (getLabelsAndPlaceholders "PX_PCT").label2 = "%" ∧
    (getLabelsAndPlaceholders "PCT_PX").label1 = "%" ∧
    (getLabelsAndPlaceholders "PCT_PX").label2 = "PX" ∧
    (getLabelsAndPlaceholders "BASE_PX").label1 = "Base Unit" ∧
    (getLabelsAndPlaceholders "BASE_PX").label2 = "PX" ∧
    (getLabelsAndPlaceholders "PX_BASE").label1 = "PX" ∧
    (getLabelsAndPlaceholders "PX_BASE").label2 = "Base Unit" ∧
    ∀ mode, mode ∉ modes8 →
      getLabelsAndPlaceholders mode = ⟨"Value 1", "Value 2", "value", "value"⟩ := by
  refine ⟨rfl, rfl, rfl, rfl, rfl, rfl, rfl, rfl, rfl, rfl, rfl, rfl, rfl, rfl,
    rfl, rfl, ?_⟩
  intro mode hm
  simp only [modes8, List.mem_cons, List.not_mem_nil, or_false, not_or] at hm
  obtain ⟨h1, h2, h3, h4, h5, h6, h7, h8⟩ := hm
  simp only [getLabelsAndPlaceholders, if_neg h1, if_neg h2, if_neg h3, if_neg h4,
    if_neg h5, if_neg h6, if_neg h7, if_neg h8]

/-- Witness for C6's default branch at the concrete unknown mode `FOO`. -/
theorem C6_labels_witness :
    getLabelsAndPlaceholders "FOO" = ⟨"Value 1", "Value 2", "value", "value"⟩ :=
  C6_labels.2.2.2.2.2.2.2.2.2.2.2.2.2.2.2.2 "FOO" (by decide)

/-- C7: every mode outside the 8-mode enumeration takes the defensive
default branch of both conversion functions, which return 0 for every
value and every base record. -/
theorem C7_unknown_mode_zero (mode : String) (hm : mode ∉ modes8) (v : ℚ)
    (r : Bases ℚ) :
    directConversion mode v r = 0 ∧ reverseConversion mode v r = 0 := by
  simp only [modes8, List.mem_cons, List.not_mem_nil, or_false, not_or] at hm
  obtain ⟨h1, h2, h3, h4, h5, h6, h7, h8⟩ := hm
  constructor <;>
    simp only [directConversion, reverseConversion, if_neg h1, if_neg h2,
      if_neg h3, if_neg h4, if_neg h5, if_neg h6, if_neg h7, if_neg h8]

/-- Witness for C7 at the concrete unknown mode `FOO`, value 5, default
base values. -/
theorem C7_unknown_mode_zero_witness :
    directConversion "FOO" 5 defaultBases = 0 ∧
      reverseConversion "FOO" 5 defaultBases = 0 :=
  C7_unknown_mode_zero "FOO" (by decide) 5 defaultBases

/-- On the eight modes, the string-level pairing `invert` agrees with the
full JavaScript lookup performed by the swap action. -/
theorem handleSwitch_agrees_on_modes8 (mode : String) (hm : mode ∈ modes8) :
    handleSwitchNewConversion mode = JSProp.str (invert mode) := by
  fin_cases hm <;> rfl

/-- C8 counterexample: `toString` is absent from the inversion table, yet
the swap's lookup `invertedMap[mode] || mode` does not return the input
unchanged there — the inherited `Object.prototype.toString` function is
truthy, so the `||` fallback never fires. -/
theorem C8_counterexample :
    handleSwitchNewConversion "toString" = JSProp.inherited "toString" ∧
    handleSwitchNewConversion "toString" ≠ JSProp.str "toString" := by
  constructor
  · rfl
  · decide

/-- C8 amended: the swap's mode inversion returns the table's paired mode
for every mode present in the table; for a mode absent from the table it
returns the input unchanged only when the mode is not a member name
inherited from `Object.prototype` — for an inherited name the truthy
inherited value is used instead of the fallback. -/
theorem C8_invert_fallback (mode : String) :
    (∀ paired, invertedMap mode = some paired →
      handleSwitchNewConversion mode = JSProp.str paired) ∧
    (invertedMap mode = none → mode ∉ objectPrototypeMembers →
      handleSwitchNewConversion mode = JSProp.str mode) ∧
    (invertedMap mode = none → mode ∈ objectPrototypeMembers →
      handleSwitchNewConversion mode = JSProp.inherited mode) := by
  refine ⟨?_, ?_, ?_⟩
  · intro paired h
    have hne : paired.isEmpty = false := by
      unfold invertedMap at h
      split_ifs at h <;> (injection h with h2; subst h2; decide)
    simp [handleSwitchNewConversion, invertedMapGet, h, jsTruthy, hne]
  · intro h hnm
    simp [handleSwitchNewConversion, invertedMapGet, h, hnm, jsTruthy]
  · intro h hmem
    simp [handleSwitchNewConversion, invertedMapGet, h, hmem, jsTruthy]

/-- Witness for C8's amended statement at the present mode `PX_REM`, the
plainly absent mode `FOO`, and the inherited name `toString`. -/
theorem C8_invert_fallback_witness :
    handleSwitchNewConversion "PX_REM" = JSProp.str "REM_PX" ∧
    handleSwitchNewConversion "FOO" = JSProp.str "FOO" ∧
    handleSwitchNewConversion "toString" = JSProp.inherited "toString" :=
  ⟨(C8_invert_fallback "PX_REM").1 "REM_PX" (by decide),
   (C8_invert_fallback "FOO").2.1 (by decide) (by decide),
   (C8_invert_fallback "toString").2.2 (by decide) (by decide)⟩

/-- C9: over exact arithmetic, for each of the 8 modes with its relevant
base value nonzero, `directConversion` is linear in the value argument:
it is additive, commutes with scaling, and sends 0 to 0. -/
theorem C9_linear (mode : String) (hm : mode ∈ modes8) (r : Bases ℚ)
    (hrel : relevantBase mode r ≠ 0) :
    (∀ a b : ℚ, directConversion mode (a + b) r =
      directConversion mode a r + directConversion mode b r) ∧
    (∀ k v : ℚ, directConversion mode (k * v) r =
      k * directConversion mode v r) ∧
    directConversion mode 0 r = 0 := by
  fin_cases hm <;>
    refine ⟨fun a b => ?_, fun k v => ?_, ?_⟩ <;>
    simp [directConversion, pxToRem, remToPx, pxToEm, emToPx, pxToPct, pctToPx,
      baseUnitToPx, pxToBaseUnit] <;>
    ring

/-- Witness for C9 at mode `PX_REM`, values 3 and 4, default base
values. -/
theorem C9_linear_witness :
    directConversion "PX_REM" (3 + 4 : ℚ) defaultBases =
      directConversion "PX_REM" 3 defaultBases +
        directConversion "PX_REM" 4 defaultBases :=
  (C9_linear "PX_REM" (by decide) defaultBases
    (by norm_num [relevantBase, defaultBases])).1 3 4

/-- C10: each conversion mode reads exactly one field of the base record:
two records agreeing on that one field give equal results for the same
value, whatever the other three fields are. -/
theorem C10_field_dependence (r1 r2 : Bases ℚ) (v : ℚ) :
    (r1.baseRem = r2.baseRem →
      directConversion "PX_REM" v r1 = directConversion "PX_REM" v r2 ∧
      directConversion "REM_PX" v r1 = directConversion "REM_PX" v r2) ∧
    (r1.baseEm = r2.baseEm →
      directConversion "PX_EM" v r1 = directConversion "PX_EM" v r2 ∧
      directConversion "EM_PX" v r1 = directConversion "EM_PX" v r2) ∧
    (r1.containerWidth = r2.containerWidth →
      directConversion "PX_PCT" v r1 = directConversion "PX_PCT" v r2 ∧
      directConversion "PCT_PX" v r1 = directConversion "PCT_PX" v r2) ∧
    (r1.baseUnit = r2.baseUnit →
      directConversion "BASE_PX" v r1 = directConversion "BASE_PX" v r2 ∧
      directConversion "PX_BASE" v r1 = directConversion "PX_BASE" v r2) := by
  refine ⟨fun h => ?_, fun h => ?_, fun h => ?_, fun h => ?_⟩ <;>
    constructor <;>
    simp [directConversion, pxToRem, remToPx, pxToEm, emToPx, pxToPct, pctToPx,
      baseUnitToPx, pxToBaseUnit, h]

/-- Witness for C10 at mode `PX_REM`, value 32: the default base record
against one agreeing only on `baseRem`. -/
theorem C10_field_dependence_witness :
    directConversion "PX_REM" 32 defaultBases =
      directConversion "PX_REM" 32 ⟨16, 99, 77, 5⟩ :=
  ((C10_field_dependence defaultBases ⟨16, 99, 77, 5⟩ 32).1 rfl).1
